import Mathlib

/-!
Verification development for the mangadex bulk uploader
(src/md_uploader.py).  The file shallowly embeds the metadata parser
(FileProcesser), the upload-session manager, the batch upload
reconciler, the committer and the per-archive orchestrator
(ChapterUploaderProcess.start_chapter_upload).  Network interactions
are modelled by an oracle of responses indexed by a per-endpoint call
counter; every remote call emits an event into a trace.  Local
filesystem side effects (log files, moving the uploaded archive) are
elided; Python exceptions are modelled by the PyErr error type of an
Except result.
-/

/-! ## Generic string and list helpers used by the embedded code -/

/-- True when the first list is a prefix of the second (character lists). -/
def charsStartWith : List Char → List Char → Bool
  | [], _ => true
  | _ :: _, [] => false
  | a :: as, b :: bs => a == b && charsStartWith as bs

/-- True when the first list occurs contiguously inside the second;
models the Python substring test `needle in hay`. -/
def charsContain (needle : List Char) : List Char → Bool
  | [] => charsStartWith needle []
  | c :: rest => charsStartWith needle (c :: rest) || charsContain needle rest

/-- Split a character list at every separator character; models
`re.split` with a single-character alternation pattern.  Splitting the
empty list yields one empty part, as in Python. -/
def splitSep (f : Char → Bool) : List Char → List (List Char)
  | [] => [[]]
  | c :: rest =>
    if f c then [] :: splitSep f rest
    else
      match splitSep f rest with
      | [] => [[c]]
      | p :: ps => (c :: p) :: ps

/-- Python lstrip of zero characters, on a character list. -/
def lstrip0 (l : List Char) : List Char := l.dropWhile (· = '0')

/-- Python period-join of parts, on character lists. -/
def joinDot : List (List Char) → List Char
  | [] => []
  | [p] => p
  | p :: ps => p ++ '.' :: joinDot ps

/-- Python `str.strip()`: drop whitespace from both ends. -/
def stripChars (l : List Char) : List Char :=
  ((l.dropWhile Char.isWhitespace).reverse.dropWhile Char.isWhitespace).reverse

/-- Python `list.insert(i, a)`: insert at position i, clamped to the
list length (an index past the end appends). -/
def pyInsert (l : List Nat) (i : Nat) (a : Nat) : List Nat :=
  l.take i ++ a :: l.drop i

/-- Fuel-driven worker for chunking; the fuel is the list length, which
suffices for any chunk size of at least one. -/
def chunksOfAux : Nat → Nat → List Nat → List (List Nat)
  | 0, _, _ => []
  | _, _, [] => []
  | fuel + 1, k, l => l.take k :: chunksOfAux fuel k (l.drop k)

/-- The Python slicing loop
`[xs[l : l + k] for l in range(0, len(xs), k)]` for k of at least one
(the k = 0 case raises ValueError in Python and is guarded by the
caller in this embedding). -/
def chunksOf (k : Nat) (l : List Nat) : List (List Nat) :=
  chunksOfAux l.length k l

/-- Characters accepted by the regex class [0-9a-fA-F]. -/
def isHexChar (c : Char) : Bool :=
  c.isDigit || ('a' ≤ c && c ≤ 'f') || ('A' ≤ c && c ≤ 'F')

/-- The 8-4-4-4-12 hex-with-hyphens shape of the uuid regex, on exactly
36 characters. -/
def uuidShape (l : List Char) : Bool :=
  l.length == 36 &&
    l.enum.all (fun p =>
      if p.1 == 8 || p.1 == 13 || p.1 == 18 || p.1 == 23 then p.2 == '-'
      else isHexChar p.2)

/-- Python `uuid_regex.match(s)`: re.match anchors only at the start,
so the first 36 characters must have the uuid shape (text may follow). -/
def isUuidStart (s : String) : Bool := uuidShape (s.data.take 36)

/-- The characters after the last slash; models `Path(s).name` for the
paths appearing in zip archives. -/
def afterLastSlash (l : List Char) : List Char :=
  l.foldl (fun acc c => if c = '/' then [] else acc ++ [c]) []

/-- Index of the last dot of a character list, if any. -/
def lastDotIdx (l : List Char) : Option Nat :=
  ((l.enum.filter (fun p => p.2 = '.')).map (fun p => p.1)).getLast?

/-- Python `Path(s).suffix`: the final component from its last dot,
unless the dot is leading or trailing. -/
def pathSuffix (s : String) : String :=
  let name := afterLastSlash s.data
  match lastDotIdx name with
  | some i => if 0 < i ∧ i < name.length - 1 then String.mk (name.drop i) else ""
  | none => ""

/-- Worker for the question-mark restoration with fuel equal to the
input length. -/
def replaceQMGo : Nat → List Char → List Char
  | 0, l => l
  | _ + 1, [] => []
  | n + 1, c :: rest =>
    if charsStartWith "<question_mark>".data (c :: rest) then
      '?' :: replaceQMGo n (rest.drop 14)
    else c :: replaceQMGo n rest

/-- Python replace of the <question_mark> marker by a question mark. -/
def replaceQM (s : String) : String := String.mk (replaceQMGo s.data.length s.data)

/-! ## Python exceptions surfacing in the embedded code -/

/-- The Python exceptions the embedded paths can raise: a call with
the wrong number of arguments, indexing an empty list, a zero step for
range, and the generic Exception raised by a failed login. -/
inductive PyErr where
  | typeError
  | indexError
  | valueError
  | loginFailed
deriving DecidableEq

/-! ## The static language table and language normalization -/

/-- One row of the static `languages` table of the source. -/
structure LangEntry where
  english : String
  md : String
  iso : String
deriving DecidableEq

/-- The static language table of src/md_uploader.py, verbatim. -/
def languages : List LangEntry :=
  [⟨"English", "en", "eng"⟩, ⟨"Japanese", "ja", "jpn"⟩,
   ⟨"Japanese (Romaji)", "ja-ro", "jpn"⟩, ⟨"Polish", "pl", "pol"⟩,
   ⟨"Serbo-Croatian", "sh", "hrv"⟩, ⟨"Dutch", "nl", "dut"⟩,
   ⟨"Italian", "it", "ita"⟩, ⟨"Russian", "ru", "rus"⟩,
   ⟨"German", "de", "ger"⟩, ⟨"Hungarian", "hu", "hun"⟩,
   ⟨"French", "fr", "fre"⟩, ⟨"Finnish", "fi", "fin"⟩,
   ⟨"Vietnamese", "vi", "vie"⟩, ⟨"Greek", "el", "gre"⟩,
   ⟨"Bulgarian", "bg", "bul"⟩, ⟨"Spanish (Es)", "es", "spa"⟩,
   ⟨"Portuguese (Br)", "pt-br", "por"⟩, ⟨"Portuguese (Pt)", "pt", "por"⟩,
   ⟨"Swedish", "sv", "swe"⟩, ⟨"Arabic", "ar", "ara"⟩,
   ⟨"Danish", "da", "dan"⟩, ⟨"Chinese (Simp)", "zh", "chi"⟩,
   ⟨"Chinese (Romaji)", "zh-ro", "chi"⟩, ⟨"Bengali", "bn", "ben"⟩,
   ⟨"Romanian", "ro", "rum"⟩, ⟨"Czech", "cs", "cze"⟩,
   ⟨"Mongolian", "mn", "mon"⟩, ⟨"Turkish", "tr", "tur"⟩,
   ⟨"Indonesian", "id", "ind"⟩, ⟨"Korean", "ko", "kor"⟩,
   ⟨"Korean (Romaji)", "ko-ro", "kor"⟩, ⟨"Spanish (LATAM)", "es-la", "spa"⟩,
   ⟨"Persian", "fa", "per"⟩, ⟨"Malay", "ms", "may"⟩,
   ⟨"Thai", "th", "tha"⟩, ⟨"Catalan", "ca", "cat"⟩,
   ⟨"Filipino", "tl", "fil"⟩, ⟨"Chinese (Trad)", "zh-hk", "chi"⟩,
   ⟨"Ukrainian", "uk", "ukr"⟩, ⟨"Burmese", "my", "bur"⟩,
   ⟨"Lithuanian", "lt", "lit"⟩, ⟨"Hebrew", "he", "heb"⟩,
   ⟨"Hindi", "hi", "hin"⟩, ⟨"Norwegian", "no", "nor"⟩,
   ⟨"Other", "NULL", "NULL"⟩]

/-- Python `str.lower()` on the ASCII strings involved, character by
character. -/
def strToLower (s : String) : String := String.mk (s.data.map Char.toLower)

/-- The regex check `^[a-zA-Z\-]{2,5}$` of FileProcesser._get_language. -/
def isShortLangCode (s : String) : Bool :=
  2 ≤ s.length && s.length ≤ 5 && s.data.all (fun c => c.isAlpha || c = '-')

/-- FileProcesser._get_language.  The argument is the language group of
the file-name match (None when the bracketed tag is absent); userChoice
models the interactive stdin read of the multiple-match menu (none for
a non-numeric input, which Python turns into a caught ValueError).  A
free-text language matching no table row reaches the final
`languages_match[0]` subscript on an empty list, which raises
IndexError. -/
def getLanguage (language : Option String) (userChoice : Option Nat) :
    Except PyErr String :=
  match language with
  | none => Except.ok "en"
  | some language =>
    if strToLower language = "eng" ∨ strToLower language = "en" then Except.ok "en"
    else if language.length < 2 then Except.ok "NULL"
    else if isShortLangCode language then Except.ok language
    else if language.length = 3 then
      match (languages.filter (fun l => l.iso = language)).map (fun l => l.md) with
      | [] => Except.ok "NULL"
      | md :: _ => Except.ok md
    else
      let languagesMatch :=
        languages.filter (fun l =>
          charsContain (strToLower language).data (strToLower l.english).data)
      if languagesMatch.length > 1 then
        match userChoice with
        | none => Except.ok "NULL"
        | some lang =>
          if lang < 1 ∨ languagesMatch.length < lang then Except.ok "NULL"
          else
            match languagesMatch.get? (lang - 1) with
            | some l => Except.ok l.md
            | none => Except.ok "NULL"
      else
        match languagesMatch with
        | [] => Except.error PyErr.indexError
        | l :: _ => Except.ok l.md

/-! ## The rest of the metadata parser (FileProcesser) -/

/-- Separators of the chapter-number split: dot or hyphen, as in the re.split pattern of the source. -/
def isDotDash (c : Char) : Bool := c = '.' || c = '-'

/-- FileProcesser._get_chapter_number: split the chapter group on dots
and hyphens, strip leading zeros of the first part only (collapsing an
all-zero first part to "0"), rejoin with periods; a missing chapter
prefix group forces the result to none. -/
def getChapterNumber (chapter pfx : Option String) : Option String :=
  let cn : Option String :=
    match chapter with
    | none => none
    | some s =>
      let parts := splitSep isDotDash s.data
      let parts :=
        match parts with
        | [] => []
        | p :: ps => (if lstrip0 p = [] then ['0'] else lstrip0 p) :: ps
      some (String.mk (joinDot parts))
  match pfx with
  | none => none
  | some _ => cn

/-- FileProcesser._get_volume_number: strip leading zeros, an all-zero
volume collapses to "0". -/
def getVolumeNumber (volume : Option String) : Option String :=
  volume.map (fun s =>
    let stripped := lstrip0 s.data
    String.mk (if stripped = [] then ['0'] else stripped))

/-- FileProcesser._get_chapter_title: restore the question mark. -/
def getChapterTitle (chapterTitle : Option String) : Option String :=
  chapterTitle.map replaceQM

/-- The name-to-id lookup maps.  A field of none models the table
missing the corresponding top-level key, which the source catches as
KeyError. -/
structure NameMaps where
  manga : Option (String → Option String)
  group : Option (String → Option String)

/-- FileProcesser._get_manga_series: a title that already starts with a
uuid passes through, otherwise the manga map resolves it (a missing map
key degrades to none). -/
def getMangaSeries (maps : NameMaps) (title : String) : Option String :=
  if isUuidStart title then some title
  else
    match maps.manga with
    | none => none
    | some m => m title

/-- The resolution loop inside FileProcesser._get_groups. -/
def resolveGroups (groupMap : Option (String → Option String))
    (arr : List String) : List String :=
  arr.foldl (fun acc g =>
    if isUuidStart g then acc ++ [g]
    else
      match groupMap with
      | none => acc
      | some m =>
        match m g with
        | some gid => acc ++ [gid]
        | none => acc) []

/-- FileProcesser._get_groups: split the bracketed group list on plus
signs, strip whitespace, resolve each name (unresolved names drop
silently); an empty result substitutes the configured fallback id, an
empty fallback leaves the list empty. -/
def getGroups (groupMap : Option (String → Option String))
    (fallbackId : String) (groupsMatch : Option String) : List String :=
  let groups :=
    match groupsMatch with
    | none => []
    | some gs =>
      resolveGroups groupMap
        ((splitSep (fun c => c = '+') gs.data).map (fun g => String.mk (stripChars g)))
  if groups = [] then (if fallbackId = "" then [] else [fallbackId]) else groups

/-- The named groups of file_name_regex.  The regular-expression engine
itself is not embedded: the match result (None for a name that does not
match the grammar) is an input of the embedding.  The title group is
mandatory in the grammar, every other group is optional. -/
structure ZipMatch where
  artist : Option String
  title : String
  language : Option String
  pfx : Option String
  chapterNum : Option String
  volume : Option String
  chapterTitle : Option String
  group : Option String
  version : Option String
  extGroup : Option String
deriving DecidableEq

/-- The structured upload request FileProcesser.process_zip_name leaves
on the instance when it returns True. -/
structure ChapterMeta where
  mangaSeries : String
  language : String
  chapterNumber : Option String
  volumeNumber : Option String
  groups : List String
  chapterTitle : Option String
deriving DecidableEq

/-- FileProcesser.process_zip_name: a failed grammar match or an
unresolved series yields none (the source returns False and the caller
skips the archive); otherwise the metadata fields are derived in source
order.  The language step can raise (see getLanguage). -/
def processZipName (maps : NameMaps) (fallbackId : String)
    (userChoice : Option Nat) (m : Option ZipMatch) :
    Except PyErr (Option ChapterMeta) :=
  match m with
  | none => Except.ok none
  | some zm =>
    match getMangaSeries maps zm.title with
    | none => Except.ok none
    | some series =>
      match getLanguage zm.language userChoice with
      | Except.error e => Except.error e
      | Except.ok lang =>
        Except.ok (some
          { mangaSeries := series
            language := lang
            chapterNumber := getChapterNumber zm.chapterNum zm.pfx
            volumeNumber := getVolumeNumber zm.volume
            groups := getGroups maps.group fallbackId zm.group
            chapterTitle := getChapterTitle zm.chapterTitle })

/-! ## The remote protocol: responses, oracle, world and trace -/

/-- Response of GET /upload.  sessionId is the id convert_json extracts
from a 200 body; none with status 200 models a body that fails json
conversion. -/
structure ProbeResp where
  status : Nat
  sessionId : Option Nat
deriving DecidableEq

/-- Response of POST /upload/begin, same body convention. -/
structure BeginResp where
  status : Nat
  sessionId : Option Nat
deriving DecidableEq

/-- Response of an image-batch POST: the per-image success entries as
pairs of the renamed original file name (a decimal index in the source,
a Nat here) and the server-assigned page id, plus the flag for a
nonempty errors array (log-only in the source). -/
structure UploadResp where
  status : Nat
  successes : List (Nat × Nat)
  hasErrors : Bool
deriving DecidableEq

/-- Response of POST /upload/id/commit; jsonOk false models a 200 body
that fails json conversion. -/
structure CommitResp where
  status : Nat
  jsonOk : Bool
deriving DecidableEq

/-- One remote call, as recorded in the trace. -/
inductive NetEvent where
  | login
  | probe (r : ProbeResp)
  | deleteSession (sid : Nat)
  | beginSession (r : BeginResp)
  | uploadBatch (sid : Nat) (keys : List Nat)
  | commit (sid : Nat) (pageOrder : List Nat)
deriving DecidableEq

/-- The environment: what the remote answers to the nth call of each
endpoint, and whether the nth login succeeds. -/
structure Oracle where
  probeResp : Nat → ProbeResp
  beginResp : Nat → BeginResp
  uploadResp : Nat → UploadResp
  commitResp : Nat → CommitResp
  loginOk : Nat → Bool

/-- Mutable process state: one call counter per endpoint, the
Authorization-header flag of the requests session, and the
failed_uploads list (the FailureLedger). -/
structure World where
  probeCnt : Nat
  beginCnt : Nat
  uploadCnt : Nat
  commitCnt : Nat
  loginCnt : Nat
  auth : Bool
  ledger : List String
deriving DecidableEq

/-- The initial world of a run. -/
def world0 : World :=
  { probeCnt := 0, beginCnt := 0, uploadCnt := 0, commitCnt := 0,
    loginCnt := 0, auth := false, ledger := [] }

/-- login_to_md: POST /auth/login; a non-200 response raises, a success
sets the Authorization header. -/
def doLogin (o : Oracle) (w : World) : Except PyErr Unit × World × List NetEvent :=
  let ok := o.loginOk w.loginCnt
  ((if ok then Except.ok () else Except.error PyErr.loginFailed),
   { w with loginCnt := w.loginCnt + 1, auth := (ok || w.auth) },
   [NetEvent.login])

/-- ChapterUploaderProcess._remove_upload_session: fire-and-forget
DELETE of the upload session. -/
def removeUploadSession (sid : Nat) (w : World) : World × List NetEvent :=
  (w, [NetEvent.deleteSession sid])

/-- ChapterUploaderProcess._delete_exising_upload_session: probe for an
existing session up to the retry ceiling; a 200 body with an id deletes
it and returns, 404 returns, 401 re-logs-in (a failed login raises) and
retries, anything else retries.  Exhaustion only logs. -/
def deleteExistingLoop (o : Oracle) :
    Nat → World → Except PyErr Unit × World × List NetEvent
  | 0, w => (Except.ok (), w, [])
  | n + 1, w =>
    let r := o.probeResp w.probeCnt
    let w1 : World := { w with probeCnt := w.probeCnt + 1 }
    if r.status = 200 then
      match r.sessionId with
      | none =>
        let rec1 := deleteExistingLoop o n w1
        (rec1.1, rec1.2.1, NetEvent.probe r :: rec1.2.2)
      | some sid =>
        (Except.ok (), w1, [NetEvent.probe r, NetEvent.deleteSession sid])
    else if r.status = 404 then (Except.ok (), w1, [NetEvent.probe r])
    else if r.status = 401 then
      let ok := o.loginOk w1.loginCnt
      let w2 : World := { w1 with loginCnt := w1.loginCnt + 1, auth := (ok || w1.auth) }
      if ok then
        let rec1 := deleteExistingLoop o n w2
        (rec1.1, rec1.2.1, NetEvent.probe r :: NetEvent.login :: rec1.2.2)
      else (Except.error PyErr.loginFailed, w2, [NetEvent.probe r, NetEvent.login])
    else
      let rec1 := deleteExistingLoop o n w1
      (rec1.1, rec1.2.1, NetEvent.probe r :: rec1.2.2)

/-- ChapterUploaderProcess._create_upload_session, as the loop over the
remaining attempts.  Each iteration first clears any existing session
(with the full retry ceiling of the config), then posts /upload/begin;
401 re-logs-in and retries, a 200 with a parsable body returns its
session id, everything else retries.  Exhaustion appends the archive to
the failed_uploads ledger and yields none. -/
def createSessionLoop (o : Oracle) (budget : Nat) (zipName : String) :
    Nat → World → Except PyErr (Option Nat) × World × List NetEvent
  | 0, w => (Except.ok none, { w with ledger := w.ledger ++ [zipName] }, [])
  | n + 1, w =>
    let d := deleteExistingLoop o budget w
    match d.1 with
    | Except.error e => (Except.error e, d.2.1, d.2.2)
    | Except.ok _ =>
      let w1 := d.2.1
      let r := o.beginResp w1.beginCnt
      let w2 : World := { w1 with beginCnt := w1.beginCnt + 1 }
      if r.status = 401 then
        let ok := o.loginOk w2.loginCnt
        let w3 : World := { w2 with loginCnt := w2.loginCnt + 1, auth := (ok || w2.auth) }
        if ok then
          let rec1 := createSessionLoop o budget zipName n w3
          (rec1.1, rec1.2.1,
            d.2.2 ++ NetEvent.beginSession r :: NetEvent.login :: rec1.2.2)
        else
          (Except.error PyErr.loginFailed, w3,
            d.2.2 ++ [NetEvent.beginSession r, NetEvent.login])
      else if r.status = 200 then
        match r.sessionId with
        | some sid => (Except.ok (some sid), w2, d.2.2 ++ [NetEvent.beginSession r])
        | none =>
          let rec1 := createSessionLoop o budget zipName n w2
          (rec1.1, rec1.2.1, d.2.2 ++ NetEvent.beginSession r :: rec1.2.2)
      else
        let rec1 := createSessionLoop o budget zipName n w2
        (rec1.1, rec1.2.1, d.2.2 ++ NetEvent.beginSession r :: rec1.2.2)

/-- ChapterUploaderProcess._create_upload_session entry point: the
retry counter starts at zero against the configured ceiling. -/
def createUploadSession (o : Oracle) (budget : Nat) (zipName : String)
    (w : World) : Except PyErr (Option Nat) × World × List NetEvent :=
  createSessionLoop o budget zipName budget w

/-- ChapterUploaderProcess._upload_images, as the loop over remaining
attempts; batch holds the renamed keys still pending, ids the
images_to_upload_ids list, failed the failed_image_upload flag.  A
non-200 round retries whole; a 200 round inserts every reported success
at its original index via list.insert, finishes if the success count
equals the pending count, and otherwise retries the complement. -/
def uploadImagesLoop (o : Oracle) (sid : Nat) :
    List Nat → List Nat → Bool → Nat → World →
    Bool × List Nat × World × List NetEvent
  | _, ids, failed, 0, w => (failed, ids, w, [])
  | batch, ids, _, n + 1, w =>
    let r := o.uploadResp w.uploadCnt
    let w := { w with uploadCnt := w.uploadCnt + 1 }
    let ev := [NetEvent.uploadBatch sid batch]
    if r.status ≠ 200 then
      let (f, ids, w, ev2) := uploadImagesLoop o sid batch ids true n w
      (f, ids, w, ev ++ ev2)
    else
      let ids := r.successes.foldl (fun acc p => pyInsert acc p.1 p.2) ids
      if r.successes.length = batch.length then (false, ids, w, ev)
      else
        let batch := batch.filter (fun k => !((r.successes.map Prod.fst).contains k))
        let (f, ids, w, ev2) := uploadImagesLoop o sid batch ids true n w
        (f, ids, w, ev ++ ev2)

/-- The image-batch loop of start_chapter_upload: run _upload_images
per batch, breaking at the first failed batch. -/
def uploadBatchesLoop (o : Oracle) (budget : Nat) (sid : Nat) :
    List (List Nat) → List Nat → World →
    Bool × List Nat × World × List NetEvent
  | [], ids, w => (false, ids, w, [])
  | b :: rest, ids, w =>
    let (f, ids, w, ev) := uploadImagesLoop o sid b ids false budget w
    if f then (true, ids, w, ev)
    else
      let (f2, ids2, w2, ev2) := uploadBatchesLoop o budget sid rest ids w
      (f2, ids2, w2, ev ++ ev2)

/-- The chapter draft posted to the commit endpoint. -/
structure Draft where
  volume : Option String
  chapter : Option String
  title : Option String
  language : String
deriving DecidableEq

/-- ChapterUploaderProcess._commit_chapter, as the loop over remaining
attempts.  A 200 returns True (moving the archive on a parsable body, a
local action elided here); 401 re-logs-in (a failure raises); any other
status retries.  The retry counter increments on every iteration, the
401 one included.  Exhaustion deletes the session, appends the archive
to the ledger and returns False. -/
def commitLoop (o : Oracle) (sid : Nat) (draft : Draft)
    (pageOrder : List Nat) (zipName : String) :
    Nat → World → Except PyErr Bool × World × List NetEvent
  | 0, w =>
    let (w, ev) := removeUploadSession sid w
    (Except.ok false, { w with ledger := w.ledger ++ [zipName] }, ev)
  | n + 1, w =>
    let r := o.commitResp w.commitCnt
    let w := { w with commitCnt := w.commitCnt + 1 }
    let ev := [NetEvent.commit sid pageOrder]
    if r.status = 200 then (Except.ok true, w, ev)
    else if r.status = 401 then
      let (lr, w, ev2) := doLogin o w
      match lr with
      | Except.error e => (Except.error e, w, ev ++ ev2)
      | Except.ok () =>
        let (res, w, ev3) := commitLoop o sid draft pageOrder zipName n w
        (res, w, ev ++ ev2 ++ ev3)
    else
      let (res, w, ev2) := commitLoop o sid draft pageOrder zipName n w
      (res, w, ev ++ ev2)

/-! ## Reading the archive and the per-archive orchestrator -/

/-- One entry of the zip info list. -/
structure ZipEntry where
  filename : String
  isDir : Bool
deriving DecidableEq

/-- The accepted image extensions of _get_images_to_upload. -/
def imageExts : List String := [".png", ".jpg", ".jpeg", ".gif"]

/-- ChapterUploaderProcess._get_images_to_upload: keep non-directory
entries with an image suffix, rename each to its index in that filtered
list (a decimal string in the source, a Nat here), and chunk into
batches of the configured size.  Also returns the renamed-to-basename
association the source keeps for log messages.  A batch size of zero
reaches a zero-step range call, which raises ValueError. -/
def getImagesToUpload (batchSize : Nat) (entries : List ZipEntry) :
    Except PyErr (List (List Nat) × List (Nat × String)) :=
  let names := (entries.filter
    (fun e => !e.isDir && imageExts.contains (pathSuffix e.filename))).map
      (fun e => e.filename)
  if batchSize = 0 then Except.error PyErr.valueError
  else
    let keys := names.map (fun img => names.indexOf img)
    let batches := chunksOf batchSize keys
    let assoc := names.map (fun img =>
      (names.indexOf img, String.mk (afterLastSlash img.data)))
    Except.ok (batches, assoc)

/-- Per-run configuration drawn from config.ini. -/
structure UploaderCfg where
  retryBudget : Nat
  batchSize : Nat
  fallbackId : String
  userChoice : Option Nat

/-- One archive to upload: its file name, its suffix, the result of
matching file_name_regex against the name, and its zip entries. -/
structure Archive where
  name : String
  ext : String
  nameMatch : Option ZipMatch
  entries : List ZipEntry

/-- ChapterUploaderProcess.start_chapter_upload: reject non-archive
extensions; parse the name (skipping on a failed match or an unresolved
series); log in when the session has no Authorization header; create
the upload session (skipping, with the ledger already appended, when
that failed); read and batch the images; upload the batches; on a
failed image upload the source calls the one-parameter method
_remove_upload_session with two arguments, which Python rejects with a
TypeError before the session delete or the ledger append can happen;
otherwise commit the chapter. -/
def startChapterUpload (o : Oracle) (cfg : UploaderCfg) (maps : NameMaps)
    (arc : Archive) (w : World) : Except PyErr Unit × World × List NetEvent :=
  if arc.ext ≠ ".zip" ∧ arc.ext ≠ ".cbz" then (Except.ok (), w, [])
  else
    match processZipName maps cfg.fallbackId cfg.userChoice arc.nameMatch with
    | Except.error e => (Except.error e, w, [])
    | Except.ok none => (Except.ok (), w, [])
    | Except.ok (some meta) =>
      let (lres, w, ev0) := if !w.auth then doLogin o w else (Except.ok (), w, [])
      match lres with
      | Except.error e => (Except.error e, w, ev0)
      | Except.ok () =>
        let (sres, w, ev1) := createUploadSession o cfg.retryBudget arc.name w
        match sres with
        | Except.error e => (Except.error e, w, ev0 ++ ev1)
        | Except.ok none => (Except.ok (), w, ev0 ++ ev1)
        | Except.ok (some sid) =>
          match getImagesToUpload cfg.batchSize arc.entries with
          | Except.error e => (Except.error e, w, ev0 ++ ev1)
          | Except.ok (batches, _assoc) =>
            let (failed, ids, w, ev2) :=
              uploadBatchesLoop o cfg.retryBudget sid batches [] w
            if failed then
              (Except.error PyErr.typeError, w, ev0 ++ ev1 ++ ev2)
            else
              let draft : Draft :=
                { volume := meta.volumeNumber, chapter := meta.chapterNumber,
                  title := meta.chapterTitle, language := meta.language }
              let (cres, w, ev3) :=
                commitLoop o sid draft ids arc.name cfg.retryBudget w
              match cres with
              | Except.error e => (Except.error e, w, ev0 ++ ev1 ++ ev2 ++ ev3)
              | Except.ok _ => (Except.ok (), w, ev0 ++ ev1 ++ ev2 ++ ev3)

/-! ## Specification-side definitions for the refinement claims -/

/-- Modelled from the spec sentence on number normalization: strip the
leading zeros of a part, collapsing an all-zero part to "0". -/
def specStripCollapse (p : List Char) : List Char :=
  let s := p.dropWhile (· = '0')
  if s = [] then ['0'] else s

/-- Modelled from the spec sentence: multi-part chapter numbers
(decimal-point or hyphen separated) normalize each part independently
and rejoin with a period. -/
def specNormalizeChapter (s : String) : String :=
  String.mk (joinDot ((splitSep isDotDash s.data).map specStripCollapse))

/-! ## Trace predicates for the session-creation claim -/

/-- Event classifiers for the trace. -/
def isBeginEv : NetEvent → Bool
  | NetEvent.beginSession _ => true
  | _ => false

/-- A commit request, for counting attempts. -/
def isCommitEv : NetEvent → Bool
  | NetEvent.commit _ _ => true
  | _ => false

/-- A login request, for counting re-authentications. -/
def isLoginEv : NetEvent → Bool
  | NetEvent.login => true
  | _ => false

/-- The probe response identified an existing open session. -/
def probeFound (pr : ProbeResp) (sid : Nat) : Prop :=
  pr.status = 200 ∧ pr.sessionId = some sid

/-- Traces in which every session-creation request sits inside a block
headed by a stale-session probe: a trace is either free of begin events,
or starts with a probe, a begin-free stretch holding the deletion of
whatever session that probe found, the begin itself, a begin-free
stretch, and a remainder of the same shape. -/
inductive GoodTrace : List NetEvent → Prop where
  | nil : GoodTrace []
  | skip : ∀ (e : NetEvent) (t : List NetEvent), isBeginEv e = false →
      GoodTrace t → GoodTrace (e :: t)
  | seg : ∀ (pr : ProbeResp) (db : List NetEvent) (r : BeginResp)
      (rest : List NetEvent),
      (∀ e ∈ db, isBeginEv e = false) →
      (∀ sid, probeFound pr sid → NetEvent.deleteSession sid ∈ db) →
      GoodTrace rest →
      GoodTrace (NetEvent.probe pr :: db ++ NetEvent.beginSession r :: rest)

/-! ## Concrete scenarios used by the claim theorems and witnesses -/

/-- A name table resolving exactly the series Mytitle, with an empty
group table. -/
def mapsA : NameMaps :=
  { manga := some (fun t =>
      if t = "Mytitle" then some "11111111-1111-1111-1111-111111111111" else none)
    group := some (fun _ => none) }

/-- The match of the archive name `Mytitle - c1.zip`. -/
def zmA : ZipMatch :=
  { artist := none, title := "Mytitle", language := none, pfx := some "c",
    chapterNum := some "1", volume := none, chapterTitle := none,
    group := none, version := none, extGroup := some "zip" }

/-- Four page images in zip order. -/
def entriesA : List ZipEntry :=
  [⟨"01.png", false⟩, ⟨"02.png", false⟩, ⟨"03.png", false⟩, ⟨"04.png", false⟩]

/-- A well-formed four-page archive. -/
def arcA : Archive :=
  { name := "Mytitle - c1.zip", ext := ".zip", nameMatch := some zmA,
    entries := entriesA }

/-- Default configuration: retry ceiling 3, batch size 10, no fallback
group, no interactive input. -/
def cfgA : UploaderCfg :=
  { retryBudget := 3, batchSize := 10, fallbackId := "", userChoice := none }

/-- Oracle for the page-order scenario: no stale session, session id 7,
and three image rounds succeeding for original indices 3, then 1, then
0 and 2 (indices 0 to 2 fail round one, 0 and 2 fail round two). -/
def oracleC1 : Oracle :=
  { probeResp := fun _ => ⟨404, none⟩
    beginResp := fun _ => ⟨200, some 7⟩
    uploadResp := fun n =>
      if n = 0 then ⟨200, [(3, 103)], true⟩
      else if n = 1 then ⟨200, [(1, 101)], true⟩
      else ⟨200, [(0, 100), (2, 102)], false⟩
    commitResp := fun _ => ⟨200, true⟩
    loginOk := fun _ => true }

/-- The full upload run of the page-order scenario. -/
def runC1 := startChapterUpload oracleC1 cfgA mapsA arcA world0

/-- Oracle whose image-batch endpoint always answers 500. -/
def oracleC2 : Oracle :=
  { probeResp := fun _ => ⟨404, none⟩
    beginResp := fun _ => ⟨200, some 7⟩
    uploadResp := fun _ => ⟨500, [], false⟩
    commitResp := fun _ => ⟨200, true⟩
    loginOk := fun _ => true }

/-- The run in which every image round fails and the retry ceiling is
reached with the whole batch pending. -/
def runC2 := startChapterUpload oracleC2 cfgA mapsA arcA world0

/-- Oracle with a stale session (id 5) to clear before creating id 9. -/
def oracleC3 : Oracle :=
  { probeResp := fun _ => ⟨200, some 5⟩
    beginResp := fun _ => ⟨200, some 9⟩
    uploadResp := fun _ => ⟨200, [], false⟩
    commitResp := fun _ => ⟨200, true⟩
    loginOk := fun _ => true }

/-- Oracle answering 401 to the first commit and 200 to the second. -/
def oracleC6 : Oracle :=
  { probeResp := fun _ => ⟨404, none⟩
    beginResp := fun _ => ⟨200, some 7⟩
    uploadResp := fun _ => ⟨200, [], false⟩
    commitResp := fun n => if n = 0 then ⟨401, true⟩ else ⟨200, true⟩
    loginOk := fun _ => true }

/-- A chapter draft for the commit scenarios. -/
def draftA : Draft :=
  { volume := none, chapter := some "1", title := none, language := "en" }

/-- Commit with a retry ceiling of one against oracleC6. -/
def runC6 := commitLoop oracleC6 7 draftA [100] "x.zip" 1 world0

/-- Oracle answering 401 to every commit request. -/
def oracle401 : Oracle :=
  { probeResp := fun _ => ⟨404, none⟩
    beginResp := fun _ => ⟨404, none⟩
    uploadResp := fun _ => ⟨404, [], false⟩
    commitResp := fun _ => ⟨401, true⟩
    loginOk := fun _ => true }

/-- An archive whose name does not match the grammar. -/
def arcMalformed : Archive :=
  { name := "badname.zip", ext := ".zip", nameMatch := none, entries := [] }

/-- The match of an archive whose series is not in the name table. -/
def zmU : ZipMatch := { zmA with title := "Unknown" }

/-- An archive whose series name stays unresolved. -/
def arcUnresolved : Archive :=
  { name := "Unknown - c1.zip", ext := ".zip", nameMatch := some zmU,
    entries := [] }

/-- Oracle whose begin endpoint always answers 500. -/
def oracleC7c : Oracle :=
  { probeResp := fun _ => ⟨404, none⟩
    beginResp := fun _ => ⟨500, none⟩
    uploadResp := fun _ => ⟨200, [], false⟩
    commitResp := fun _ => ⟨200, true⟩
    loginOk := fun _ => true }

/-- A single page image. -/
def entriesB : List ZipEntry := [⟨"01.png", false⟩]

/-- A well-formed one-page archive. -/
def arcB : Archive :=
  { name := "Mytitle - c1.zip", ext := ".zip", nameMatch := some zmA,
    entries := entriesB }

/-- Oracle whose commit endpoint always answers 500. -/
def oracleC7d : Oracle :=
  { probeResp := fun _ => ⟨404, none⟩
    beginResp := fun _ => ⟨200, some 7⟩
    uploadResp := fun _ => ⟨200, [(0, 100)], false⟩
    commitResp := fun _ => ⟨500, true⟩
    loginOk := fun _ => true }

/-- Run of a malformed-name archive. -/
def runC7a := startChapterUpload oracleC1 cfgA mapsA arcMalformed world0

/-- Run of an unresolved-series archive. -/
def runC7b := startChapterUpload oracleC1 cfgA mapsA arcUnresolved world0

/-- Run in which session creation exhausts its retries. -/
def runC7c := startChapterUpload oracleC7c cfgA mapsA arcA world0

/-- Run in which the commit exhausts its retries. -/
def runC7d := startChapterUpload oracleC7d cfgA mapsA arcB world0

/-- An archive whose zip holds no images at all. -/
def arcZero : Archive :=
  { name := "Mytitle - c1.zip", ext := ".zip", nameMatch := some zmA,
    entries := [] }

/-- Oracle for the zero-image run: session id 7, commit accepted; the
image endpoint would fail but is never called. -/
def oracleC8 : Oracle :=
  { probeResp := fun _ => ⟨404, none⟩
    beginResp := fun _ => ⟨200, some 7⟩
    uploadResp := fun _ => ⟨500, [], false⟩
    commitResp := fun _ => ⟨200, true⟩
    loginOk := fun _ => true }

/-- The zero-image run. -/
def runC8 := startChapterUpload oracleC8 cfgA mapsA arcZero world0

/-! ## Theorems -/

/-- C1.  The claim fails on the code: _upload_images places each
server-assigned id with list.insert at the original index, which only
lands at that absolute position when successes arrive in ascending
original-index order.  In this run the four pages of one batch succeed
as 3, then 1, then 0 and 2 over three rounds, and the committed
pageOrder is [100, 103, 102, 101]: the id of the page with original
index 3 sits at position 1, not position 3, so the invariant does not
hold regardless of which images failed in which round. -/
theorem c1_insert_misorders_committed_page_order :
    runC1.1 = Except.ok () ∧
    runC1.2.2.contains (NetEvent.commit 7 [100, 103, 102, 101]) = true ∧
    runC1.2.2.contains (NetEvent.commit 7 [100, 101, 102, 103]) = false :=
  ⟨rfl, rfl, rfl⟩

/-- C2.  The claim fails on the code: when the image upload reaches the
retry ceiling with a non-empty pending set, start_chapter_upload calls
the one-parameter method _remove_upload_session with two arguments, so
Python raises TypeError before anything else happens — the session is
not deleted, the archive is not appended to failed_uploads, and the
exception propagates out of the per-archive call. -/
theorem c2_exhausted_batch_raises_type_error :
    runC2.1 = Except.error PyErr.typeError ∧
    runC2.2.1.ledger = [] ∧
    runC2.2.2.contains (NetEvent.deleteSession 7) = false :=
  ⟨rfl, rfl, rfl⟩

/-- C4.  The claim fails on the code: eng and en map to en and free
text resolves by substring match (French yields fr), but the 2-5 letter
pass-through branch precedes the ISO-639-3 table branch, so jpn is
returned unchanged instead of resolving to ja; and free text matching
zero candidates reaches a subscript on an empty list and raises
IndexError instead of yielding the sentinel. -/
theorem c4_language_resolution_diverges :
    getLanguage (some "eng") none = Except.ok "en" ∧
    getLanguage (some "fr") none = Except.ok "fr" ∧
    getLanguage (some "French") none = Except.ok "fr" ∧
    getLanguage (some "jpn") none = Except.ok "jpn" ∧
    getLanguage (some "Klingon") none = Except.error PyErr.indexError :=
  ⟨rfl, rfl, rfl, rfl, rfl⟩

/-- C6 counterexample.  With a retry ceiling of one and a commit
endpoint answering 401 then 200, the claim says the 401 must not
consume the budget, so the second attempt would succeed; the code
increments the retry counter on the 401 iteration as well, makes
exactly one commit attempt, never sees the 200, and fails the upload,
recording the archive in the ledger. -/
theorem c6_commit_401_consumes_budget_cex :
    runC6.1 = Except.ok false ∧
    runC6.2.2.countP isCommitEv = 1 ∧
    runC6.2.2.countP isLoginEv = 1 ∧
    runC6.2.1.ledger = ["x.zip"] :=
  ⟨rfl, rfl, rfl, rfl⟩

/-- C7 counterexample.  An archive whose name fails the grammar match
terminates with the per-archive fatal error MalformedName, yet the run
leaves the FailureLedger untouched (and makes no network call): the
claim that every per-archive fatal error is appended to the ledger is
false on the code. -/
theorem c7_fatal_error_ledger_cex :
    runC7a.1 = Except.ok () ∧ runC7a.2.1.ledger = [] ∧ runC7a.2.2 = [] :=
  ⟨rfl, rfl, rfl⟩

/-- C7 amended.  SessionCreateFailed and CommitFailed append the
archive to the FailureLedger and return normally so the run continues;
MalformedName and UnresolvedSeries skip the archive without any ledger
entry (the run also continues); ImageBatchExhausted raises a TypeError
before the ledger append, so nothing is recorded and the exception
escapes the per-archive call. -/
theorem c7_fatal_error_ledger_amended :
    (runC7a.1 = Except.ok () ∧ runC7a.2.1.ledger = []) ∧
    (runC7b.1 = Except.ok () ∧ runC7b.2.1.ledger = []) ∧
    (runC7c.1 = Except.ok () ∧ runC7c.2.1.ledger = ["Mytitle - c1.zip"]) ∧
    (runC7d.1 = Except.ok () ∧ runC7d.2.1.ledger = ["Mytitle - c1.zip"] ∧
      runC7d.2.2.contains (NetEvent.deleteSession 7) = true) ∧
    (runC2.1 = Except.error PyErr.typeError ∧ runC2.2.1.ledger = []) :=
  ⟨⟨rfl, rfl⟩, ⟨rfl, rfl⟩, ⟨rfl, rfl⟩, ⟨rfl, rfl, rfl⟩, ⟨rfl, rfl⟩⟩

/-- C8 counterexample.  An archive containing zero images is not a
distinct terminal failure: the batch loop over the empty batch list
reports no failure, the upload proceeds to commit with an empty
pageOrder, the commit succeeds and the ledger stays empty — exactly the
trivially-all-succeeded treatment the claim rules out. -/
theorem c8_zero_images_commit_cex :
    runC8.1 = Except.ok () ∧
    runC8.2.2.contains (NetEvent.commit 7 []) = true ∧
    runC8.2.1.ledger = [] :=
  ⟨rfl, rfl, rfl⟩

/-- C8 amended.  An archive with zero images is treated as trivially
successful: the batch loop over an empty batch list reports no failure
for any oracle and state, and the zero-image run reaches the commit
request with an empty page list. -/
theorem c8_zero_images_proceeds :
    (∀ (o : Oracle) (b sid : Nat) (ids : List Nat) (w : World),
      uploadBatchesLoop o b sid [] ids w = (false, ids, w, [])) ∧
    runC8.2.2.contains (NetEvent.commit 7 []) = true :=
  ⟨fun _ _ _ _ _ => rfl, rfl⟩

/-- C10.  When the bracketed language tag is absent from the file name
(the language group of the match is None), _get_language returns en
before any other branch runs: a missing tag silently defaults the
chapter language to English, whatever the interactive input would be. -/
theorem c10_missing_language_tag_defaults_en :
    ∀ choice : Option Nat, getLanguage none choice = Except.ok "en" :=
  fun _ => rfl

/-! ## Helper lemmas -/

/-- Unfolding the data of a built string. -/
theorem data_mk (l : List Char) : (String.mk l).data = l := rfl

/-- A digit is neither a dot nor a hyphen. -/
theorem digit_not_sep (c : Char) (h : c.isDigit = true) : isDotDash c = false := by
  cases hb : isDotDash c
  · rfl
  · exfalso
    have hor : c = '.' ∨ c = '-' := by simpa [isDotDash] using hb
    rcases hor with rfl | rfl
    · exact absurd h (by decide)
    · exact absurd h (by decide)

/-- Splitting after a separator-free block keeps the block glued to the
head part of the rest of the split. -/
theorem splitSep_append_sepFree (f : Char → Bool) (ds : List Char)
    (hds : ∀ c ∈ ds, f c = false) (l h : List Char) (t : List (List Char))
    (hl : splitSep f l = h :: t) :
    splitSep f (ds ++ l) = (ds ++ h) :: t := by
  induction ds with
  | nil => simpa using hl
  | cons c ds ih =>
    have hc : f c = false := hds c (List.mem_cons_self c ds)
    have ih2 := ih (fun x hx => hds x (List.mem_cons_of_mem c hx))
    show splitSep f (c :: (ds ++ l)) = ((c :: ds) ++ h) :: t
    simp [splitSep, hc, ih2]

/-- A trace without begin events is a GoodTrace. -/
theorem goodTrace_of_noBegin (t : List NetEvent)
    (h : ∀ e ∈ t, isBeginEv e = false) : GoodTrace t := by
  induction t with
  | nil => exact GoodTrace.nil
  | cons e t ih =>
    exact GoodTrace.skip e t (h e (List.mem_cons_self e t))
      (ih (fun x hx => h x (List.mem_cons_of_mem e hx)))

/-- The stale-session sweep never issues a session-creation request. -/
theorem deleteExisting_noBegin (n : Nat) (o : Oracle) : ∀ (w : World),
    ∀ e ∈ (deleteExistingLoop o n w).2.2, isBeginEv e = false := by
  induction n with
  | zero => intro w e he; simp [deleteExistingLoop] at he
  | succ n ih =>
    intro w e he
    simp only [deleteExistingLoop] at he
    split at he
    · split at he
      · rcases List.mem_cons.mp he with rfl | he2
        · rfl
        · exact ih _ e he2
      · rcases List.mem_cons.mp he with rfl | he2
        · rfl
        · rcases List.mem_cons.mp he2 with rfl | he3
          · rfl
          · exact absurd he3 (List.not_mem_nil e)
    · split at he
      · rcases List.mem_cons.mp he with rfl | he2
        · rfl
        · exact absurd he2 (List.not_mem_nil e)
      · split at he
        · split at he
          · rcases List.mem_cons.mp he with rfl | he2
            · rfl
            · rcases List.mem_cons.mp he2 with rfl | he3
              · rfl
              · exact ih _ e he3
          · rcases List.mem_cons.mp he with rfl | he2
            · rfl
            · rcases List.mem_cons.mp he2 with rfl | he3
              · rfl
              · exact absurd he3 (List.not_mem_nil e)
        · rcases List.mem_cons.mp he with rfl | he2
          · rfl
          · exact ih _ e he2

/-- A stale-session sweep with at least one attempt starts with a probe,
and a deletion of whatever session that probe identified follows it. -/
theorem deleteExisting_headProbe (n : Nat) (o : Oracle) (w : World) (hn : 1 ≤ n) :
    ∃ pr rest, (deleteExistingLoop o n w).2.2 = NetEvent.probe pr :: rest ∧
      ∀ sid, probeFound pr sid → NetEvent.deleteSession sid ∈ rest := by
  cases n with
  | zero => exact absurd hn (by omega)
  | succ n =>
    simp only [deleteExistingLoop]
    split
    · next h200 =>
      split
      · next heq =>
        refine ⟨_, _, rfl, ?_⟩
        intro sid hf
        have h2 := hf.2
        rw [heq] at h2
        cases h2
      · next sid0 heq =>
        refine ⟨_, _, rfl, ?_⟩
        intro sid hf
        have h2 := hf.2
        rw [heq] at h2
        obtain rfl : sid0 = sid := Option.some.inj h2
        simp
    · next h200 =>
      split
      · exact ⟨_, _, rfl, fun sid hf => absurd hf.1 h200⟩
      · split
        · split
          · exact ⟨_, _, rfl, fun sid hf => absurd hf.1 h200⟩
          · exact ⟨_, _, rfl, fun sid hf => absurd hf.1 h200⟩
        · exact ⟨_, _, rfl, fun sid hf => absurd hf.1 h200⟩

/-- A begin event behind a begin-free block splits off that block. -/
theorem splitAcrossBeginless (mid : List NetEvent)
    (hmid : ∀ e ∈ mid, isBeginEv e = false) :
    ∀ (rc m2 post : List NetEvent) (rb : BeginResp),
      mid ++ rc = m2 ++ NetEvent.beginSession rb :: post →
      ∃ m3, m2 = mid ++ m3 ∧ rc = m3 ++ NetEvent.beginSession rb :: post := by
  induction mid with
  | nil => intro rc m2 post rb h; exact ⟨m2, rfl, by simpa using h⟩
  | cons c mid ih =>
    intro rc m2 post rb h
    cases m2 with
    | nil =>
      have h2 : c :: (mid ++ rc) = NetEvent.beginSession rb :: post := by simpa using h
      injection h2 with hc htl
      have hcb := hmid c (List.mem_cons_self c mid)
      rw [hc] at hcb
      simp [isBeginEv] at hcb
    | cons y m2p =>
      have h2 : c :: (mid ++ rc) = y :: (m2p ++ NetEvent.beginSession rb :: post) := by
        simpa using h
      injection h2 with hy htl
      obtain ⟨m3, h1, h3⟩ :=
        ih (fun e he => hmid e (List.mem_cons_of_mem c he)) rc m2p post rb htl
      refine ⟨m3, ?_, h3⟩
      rw [← hy, h1, List.cons_append]

/-- In a GoodTrace, everything before a begin event decomposes into a
prefix, the guarding probe, and a begin-free stretch holding the
deletion of whatever session the probe found. -/
theorem goodTrace_split {t : List NetEvent} (hg : GoodTrace t) :
    ∀ (pre post : List NetEvent) (r : BeginResp),
      t = pre ++ NetEvent.beginSession r :: post →
      ∃ pre1 pr pre2, pre = pre1 ++ NetEvent.probe pr :: pre2 ∧
        (∀ e ∈ pre2, isBeginEv e = false) ∧
        ∀ sid, probeFound pr sid → NetEvent.deleteSession sid ∈ pre2 := by
  induction hg with
  | nil =>
    intro pre post r ht
    exact absurd ht.symm (by simp)
  | skip e t he hgt ih =>
    intro pre post r ht
    cases pre with
    | nil =>
      have h2 : e :: t = NetEvent.beginSession r :: post := by simpa using ht
      injection h2 with h1 _
      rw [h1] at he
      simp [isBeginEv] at he
    | cons x prep =>
      have h2 : e :: t = x :: (prep ++ NetEvent.beginSession r :: post) := by simpa using ht
      injection h2 with h1 h3
      obtain ⟨p1, pr, p2, hp, hb, hd⟩ := ih prep post r h3
      exact ⟨x :: p1, pr, p2, by rw [hp, List.cons_append], hb, hd⟩
  | seg pr db r rest hdb hdel hrest ih =>
    intro pre post rb ht
    cases pre with
    | nil =>
      simp only [List.nil_append] at ht
      injection ht with h1 _
      cases h1
    | cons x prep =>
      have h2 : NetEvent.probe pr :: (db ++ NetEvent.beginSession r :: rest)
          = x :: (prep ++ NetEvent.beginSession rb :: post) := by simpa using ht
      injection h2 with h1 h3
      obtain ⟨m3, hm2, hrc⟩ := splitAcrossBeginless db hdb _ prep post rb h3
      cases m3 with
      | nil =>
        refine ⟨[], pr, db, ?_, hdb, hdel⟩
        rw [← h1, hm2]
        simp
      | cons y m3p =>
        have h4 : NetEvent.beginSession r :: rest
            = y :: (m3p ++ NetEvent.beginSession rb :: post) := by simpa using hrc
        injection h4 with hy hrest2
        obtain ⟨p1, pr2, p2, hp, hb2, hd2⟩ := ih m3p post rb hrest2
        refine ⟨NetEvent.probe pr :: db ++ NetEvent.beginSession r :: p1, pr2, p2,
          ?_, hb2, hd2⟩
        rw [← h1, hm2, ← hy, hp]
        simp

/-- Every trace of the session-creation loop is a GoodTrace, for any
positive retry ceiling. -/
theorem createSession_goodTrace (o : Oracle) (budget : Nat) (zn : String)
    (hb : 1 ≤ budget) :
    ∀ (left : Nat) (w : World), GoodTrace (createSessionLoop o budget zn left w).2.2 := by
  intro left
  induction left with
  | zero => intro w; exact GoodTrace.nil
  | succ n ih =>
    intro w
    obtain ⟨pr, dRest, hdEv, hdel⟩ := deleteExisting_headProbe budget o w hb
    have hnb := deleteExisting_noBegin budget o w
    have hnbR : ∀ e ∈ dRest, isBeginEv e = false := fun e he =>
      hnb e (by rw [hdEv]; exact List.mem_cons_of_mem _ he)
    simp only [createSessionLoop]
    split
    · exact goodTrace_of_noBegin _ hnb
    · split
      · split
        · rw [hdEv, List.cons_append]
          exact GoodTrace.seg pr dRest _ _ hnbR hdel
            (GoodTrace.skip _ _ rfl (ih _))
        · rw [hdEv, List.cons_append]
          exact GoodTrace.seg pr dRest _ _ hnbR hdel
            (GoodTrace.skip _ _ rfl GoodTrace.nil)
      · split
        · split
          · rw [hdEv, List.cons_append]
            exact GoodTrace.seg pr dRest _ _ hnbR hdel GoodTrace.nil
          · rw [hdEv, List.cons_append]
            exact GoodTrace.seg pr dRest _ _ hnbR hdel (ih _)
        · rw [hdEv, List.cons_append]
          exact GoodTrace.seg pr dRest _ _ hnbR hdel (ih _)

/-- C3.  Confirmed: in every trace of _create_upload_session, whatever
the oracle, the retry ceiling and the iteration, each session-creation
request is preceded by a stale-session probe with no other creation
request in between, and when that probe identified an existing session
its deletion was attempted before the creation request. -/
theorem c3_probe_precedes_every_begin (o : Oracle) (budget : Nat) (zn : String)
    (w : World) (pre post : List NetEvent) (r : BeginResp)
    (h : (createUploadSession o budget zn w).2.2
      = pre ++ NetEvent.beginSession r :: post) :
    ∃ pre1 pr pre2, pre = pre1 ++ NetEvent.probe pr :: pre2 ∧
      (∀ e ∈ pre2, isBeginEv e = false) ∧
      ∀ sid, probeFound pr sid → NetEvent.deleteSession sid ∈ pre2 := by
  cases budget with
  | zero =>
    exfalso
    have h0 : ([] : List NetEvent) = pre ++ NetEvent.beginSession r :: post := h
    exact absurd h0.symm (by simp)
  | succ n =>
    exact goodTrace_split
      (createSession_goodTrace o (n + 1) zn (by omega) (n + 1) w) pre post r h

/-- Witness for C3: with a stale session 5 and a creation retry ceiling
of one, the trace probes, deletes session 5, then begins session 9. -/
theorem c3_probe_precedes_every_begin_witness :
    ∃ pre1 pr pre2,
      ([NetEvent.probe ⟨200, some 5⟩, NetEvent.deleteSession 5] : List NetEvent)
        = pre1 ++ NetEvent.probe pr :: pre2 ∧
      (∀ e ∈ pre2, isBeginEv e = false) ∧
      ∀ sid, probeFound pr sid → NetEvent.deleteSession sid ∈ pre2 :=
  c3_probe_precedes_every_begin oracleC3 1 "z" world0
    [NetEvent.probe ⟨200, some 5⟩, NetEvent.deleteSession 5] []
    ⟨200, some 9⟩ rfl

/-- C5.  Confirmed over the chapter strings the grammar can produce (a
nonempty run of digits, optionally followed by a period and one digit):
_get_chapter_number agrees with the specified normalization — leading
zeros stripped, an all-zero part collapsing to "0", parts split at
periods and hyphens normalized independently and rejoined with a
period — and an absent chapter-prefix group forces the result to none
even though digits are present. -/
theorem c5_chapter_number_normalization (ds tail : List Char) (pfx : Option String)
    (_hne : ds ≠ []) (hds : ∀ c ∈ ds, c.isDigit = true)
    (htail : tail = [] ∨ ∃ d : Char, d.isDigit = true ∧ tail = ['.', d]) :
    getChapterNumber (some (String.mk (ds ++ tail))) pfx
      = match pfx with
        | none => none
        | some _ => some (specNormalizeChapter (String.mk (ds ++ tail))) := by
  have hfree : ∀ c ∈ ds, isDotDash c = false := fun c hc => digit_not_sep c (hds c hc)
  rcases htail with rfl | ⟨d, hd, rfl⟩
  · have hsplit : splitSep isDotDash (ds ++ []) = (ds ++ []) :: [] :=
      splitSep_append_sepFree isDotDash ds hfree [] [] [] (by simp [splitSep])
    rw [List.append_nil] at hsplit
    rw [List.append_nil]
    cases pfx with
    | none => rfl
    | some p =>
      simp only [getChapterNumber, specNormalizeChapter, data_mk, hsplit,
        List.map_cons, List.map_nil, joinDot]
      rfl
  · have hdsep : isDotDash d = false := digit_not_sep d hd
    have hdot : isDotDash '.' = true := rfl
    have hsub : splitSep isDotDash ['.', d] = [[], [d]] := by
      simp [splitSep, hdot, hdsep]
    have hsplit : splitSep isDotDash (ds ++ ['.', d]) = (ds ++ []) :: [[d]] :=
      splitSep_append_sepFree isDotDash ds hfree ['.', d] [] [[d]] hsub
    rw [List.append_nil] at hsplit
    have hsd : specStripCollapse [d] = [d] := by
      by_cases h0 : d = '0'
      · subst h0; rfl
      · simp [specStripCollapse, List.dropWhile, h0]
    cases pfx with
    | none => rfl
    | some p =>
      simp only [getChapterNumber, specNormalizeChapter, data_mk, hsplit,
        List.map_cons, List.map_nil, joinDot, hsd]
      rfl

/-- Witness for C5: the chapter group 05.5 with the prefix token
present normalizes to 5.5, matching the specified per-part rule. -/
theorem c5_chapter_number_normalization_witness :
    getChapterNumber (some (String.mk (['0', '5'] ++ ['.', '5']))) (some "c")
      = match (some "c" : Option String) with
        | none => none
        | some _ => some (specNormalizeChapter (String.mk (['0', '5'] ++ ['.', '5']))) :=
  c5_chapter_number_normalization ['0', '5'] ['.', '5'] (some "c")
    (by simp) (by decide) (Or.inr ⟨'5', by decide, rfl⟩)

/-- C6 amended.  A 401 during commit triggers a transparent re-login
and the commit is retried, but the 401 iteration consumes a unit of the
retry budget like any other non-200 response: against an oracle that
answers 401 to every commit, a budget of n yields exactly n commit
attempts and n re-logins, after which the session is deleted and the
archive is recorded in the ledger as a failed upload. -/
theorem c6_commit_retry_accounting (n sid : Nat) (draft : Draft)
    (pg : List Nat) (zn : String) (w : World) :
    (commitLoop oracle401 sid draft pg zn n w).1 = Except.ok false ∧
    (commitLoop oracle401 sid draft pg zn n w).2.2.countP isCommitEv = n ∧
    (commitLoop oracle401 sid draft pg zn n w).2.2.countP isLoginEv = n ∧
    (commitLoop oracle401 sid draft pg zn n w).2.1.ledger = w.ledger ++ [zn] := by
  induction n generalizing w with
  | zero => simp [commitLoop, removeUploadSession, isCommitEv, isLoginEv]
  | succ n ih =>
    obtain ⟨h1, h2, h3, h4⟩ :=
      ih { w with commitCnt := w.commitCnt + 1, loginCnt := w.loginCnt + 1, auth := true }
    have hc : ∀ k, oracle401.commitResp k = ⟨401, true⟩ := fun _ => rfl
    have hl : ∀ k, oracle401.loginOk k = true := fun _ => rfl
    simp [commitLoop, doLogin, hc, hl, isCommitEv, isLoginEv,
      List.countP_cons, h1, h2, h3, h4]

/-- C9.  Confirmed: an archive whose series name does not resolve stops
at the resolution step of process_zip_name — start_chapter_upload
returns with the world untouched and an empty trace, so no login,
probe, session creation, image upload or commit request is ever sent
for that archive. -/
theorem c9_unresolved_series_no_network (o : Oracle) (cfg : UploaderCfg)
    (maps : NameMaps) (arc : Archive) (zm : ZipMatch) (w : World)
    (hm : arc.nameMatch = some zm)
    (hs : getMangaSeries maps zm.title = none) :
    startChapterUpload o cfg maps arc w = (Except.ok (), w, []) := by
  simp only [startChapterUpload, processZipName, hm, hs]
  split <;> rfl

/-- Witness for C9: the archive named Unknown resolves to nothing under
the name table of the scenario, and its run is a no-op. -/
theorem c9_unresolved_series_no_network_witness :
    startChapterUpload oracleC1 cfgA mapsA arcUnresolved world0
      = (Except.ok (), world0, []) :=
  c9_unresolved_series_no_network oracleC1 cfgA mapsA arcUnresolved zmU world0 rfl rfl
